import Mathlib

/-!
Shallow embedding of the ai-quiz-backend core: the AI-provider adapter
(`withRetry`, `extractJSON`, `AIService` in the service module) and the
quiz submit/generate route logic (`server.js`).  Definitions are
translated from the JavaScript source; theorems settle the frozen claims
about the natural-language specification.
-/

namespace AIQuiz

/-! ## JSON values

Model of the dynamic JSON values flowing through the pipeline.
Numbers are modelled as integers: every numeric literal appearing in the
verified inputs is an integer, and `JSON.parse`'s fraction/exponent
forms are outside the fragment exercised here. -/

inductive Json where
  | null
  | bool (b : Bool)
  | num (n : Int)
  | str (s : String)
  | arr (elems : List Json)
  | obj (members : List (String × Json))

/-! ## Mini `JSON.parse`

An executable model of the external `JSON.parse` builtin (strict parse of
a whole string, surrounding whitespace allowed, trailing garbage fatal),
used by `extractJSON`.  Fuelled recursive descent on `List Char`. -/

def isJsonWs (c : Char) : Bool :=
  c = ' ' || c = '\t' || c = '\n' || c = '\r'

def parseEscape (c : Char) : Option Char :=
  if c = '"' then some '"'
  else if c = '\\' then some '\\'
  else if c = '/' then some '/'
  else if c = 'n' then some '\n'
  else if c = 't' then some '\t'
  else if c = 'r' then some '\r'
  else if c = 'b' then some '\x08'
  else if c = 'f' then some '\x0c'
  else none

def parseStringBody : Nat → List Char → Option (List Char × List Char)
  | 0, _ => none
  | _ + 1, [] => none
  | fuel + 1, c :: rest =>
    if c = '"' then some ([], rest)
    else if c = '\\' then
      match rest with
      | [] => none
      | e :: rest2 =>
        match parseEscape e with
        | some ch => (parseStringBody fuel rest2).map (fun p => (ch :: p.1, p.2))
        | none => none
    else (parseStringBody fuel rest).map (fun p => (c :: p.1, p.2))

def digitsToNat (ds : List Char) : Nat :=
  ds.foldl (fun acc c => acc * 10 + (c.toNat - 48)) 0

def parseNumber (s : List Char) : Option (Int × List Char) :=
  let neg : Bool := match s with | '-' :: _ => true | _ => false
  let s1 : List Char := match s with | '-' :: r => r | _ => s
  let ds := s1.takeWhile Char.isDigit
  let rest := s1.dropWhile Char.isDigit
  if ds.isEmpty then none
  else some (if neg then -(digitsToNat ds : Int) else (digitsToNat ds : Int), rest)

def stripLit : List Char → List Char → Option (List Char)
  | [], s => some s
  | _ :: _, [] => none
  | p :: ps, c :: cs => if c = p then stripLit ps cs else none

mutual

def parseValue : Nat → List Char → Option (Json × List Char)
  | 0, _ => none
  | fuel + 1, s =>
    match s.dropWhile isJsonWs with
    | [] => none
    | c :: rest =>
      if c = '{' then
        match rest.dropWhile isJsonWs with
        | '}' :: r2 => some (Json.obj [], r2)
        | _ => (parseMembers fuel rest).map (fun p => (Json.obj p.1, p.2))
      else if c = '[' then
        match rest.dropWhile isJsonWs with
        | ']' :: r2 => some (Json.arr [], r2)
        | _ => (parseElements fuel rest).map (fun p => (Json.arr p.1, p.2))
      else if c = '"' then
        (parseStringBody fuel rest).map (fun p => (Json.str (String.mk p.1), p.2))
      else if c = 't' then
        (stripLit ['r', 'u', 'e'] rest).map (fun r => (Json.bool true, r))
      else if c = 'f' then
        (stripLit ['a', 'l', 's', 'e'] rest).map (fun r => (Json.bool false, r))
      else if c = 'n' then
        (stripLit ['u', 'l', 'l'] rest).map (fun r => (Json.null, r))
      else
        (parseNumber (c :: rest)).map (fun p => (Json.num p.1, p.2))

def parseMembers : Nat → List Char → Option (List (String × Json) × List Char)
  | 0, _ => none
  | fuel + 1, s =>
    match s.dropWhile isJsonWs with
    | '"' :: rest =>
      match parseStringBody fuel rest with
      | none => none
      | some (key, r1) =>
        match r1.dropWhile isJsonWs with
        | ':' :: r2 =>
          match parseValue fuel r2 with
          | none => none
          | some (v, r3) =>
            match r3.dropWhile isJsonWs with
            | ',' :: r4 =>
              (parseMembers fuel r4).map
                (fun p => ((String.mk key, v) :: p.1, p.2))
            | '}' :: r4 => some ([(String.mk key, v)], r4)
            | _ => none
        | _ => none
    | _ => none

def parseElements : Nat → List Char → Option (List Json × List Char)
  | 0, _ => none
  | fuel + 1, s =>
    match parseValue fuel s with
    | none => none
    | some (v, r1) =>
      match r1.dropWhile isJsonWs with
      | ',' :: r2 => (parseElements fuel r2).map (fun p => (v :: p.1, p.2))
      | ']' :: r2 => some ([v], r2)
      | _ => none

end

def jsParse (s : List Char) : Option Json :=
  match parseValue (s.length + 1) s with
  | some (v, rest) => if (rest.dropWhile isJsonWs).isEmpty then some v else none
  | none => none

/-! ## Fence matching

Model of the two regexes in `extractJSON`:
`/```json\s*([\s\S]*?)```/` and `/```([\s\S]*?)```/`.
`splitAfterFirst pat s` drops everything up to and including the first
occurrence of `pat`; `splitBeforeFirst pat s` keeps everything strictly
before the first occurrence of `pat` (and fails when `pat` is absent).
For these patterns, leftmost-match plus lazy group is exactly
"first opening marker, then first closing marker after it". -/

def isRegexSpace (c : Char) : Bool :=
  c = ' ' || c = '\t' || c = '\n' || c = '\r' || c = '\x0b' || c = '\x0c'

def splitAfterFirst (pat : List Char) : List Char → Option (List Char)
  | [] => if pat.isEmpty then some [] else none
  | c :: rest =>
    if pat.isPrefixOf (c :: rest) then some ((c :: rest).drop pat.length)
    else splitAfterFirst pat rest

def splitBeforeFirst (pat : List Char) : List Char → Option (List Char)
  | [] => if pat.isEmpty then some [] else none
  | c :: rest =>
    if pat.isPrefixOf (c :: rest) then some []
    else (splitBeforeFirst pat rest).map (c :: ·)

def backtickFence : List Char := ['`', '`', '`']

def jsonFenceTag : List Char := ['`', '`', '`', 'j', 's', 'o', 'n']

/-- Group captured by the tagged-fence regex of `extractJSON`, when it matches. -/
def fenceJson (t : List Char) : Option (List Char) :=
  (splitAfterFirst jsonFenceTag t).bind fun s =>
    splitBeforeFirst backtickFence (s.dropWhile isRegexSpace)

/-- Group captured by the generic-fence regex of `extractJSON`, when it matches. -/
def fenceAny (t : List Char) : Option (List Char) :=
  (splitAfterFirst backtickFence t).bind fun s =>
    splitBeforeFirst backtickFence s

/-! ## extractJSON -/

inductive ExtractErr where
  /-- A `JSON.parse` SyntaxError thrown from inside `extractJSON`
  (the two fenced-block parses are not guarded by try/catch). -/
  | syntaxErr
  /-- The typed `"❌ AI did not return valid JSON"` error. -/
  | noValidJson
deriving DecidableEq

/-- `extractJSON` with its `JSON.parse` dependency made explicit. -/
def extractJSONwith (p : List Char → Option Json) (t : List Char) :
    Except ExtractErr Json :=
  match p t with
  | some v => Except.ok v
  | none =>
    match fenceJson t with
    | some content =>
      match p content with
      | some v => Except.ok v
      | none => Except.error ExtractErr.syntaxErr
    | none =>
      match fenceAny t with
      | some content =>
        match p content with
        | some v => Except.ok v
        | none => Except.error ExtractErr.syntaxErr
      | none => Except.error ExtractErr.noValidJson

/-- `extractJSON` from the service module. -/
def extractJSON (t : String) : Except ExtractErr Json :=
  extractJSONwith jsParse t.data

/-- Attempt (1) of the spec: direct parse of the entire text. -/
def attemptDirect (p : List Char → Option Json) (t : List Char) : Option Json :=
  p t

/-- Attempt (2) of the spec: parse of the contents of a json-tagged fenced block. -/
def attemptJsonFence (p : List Char → Option Json) (t : List Char) : Option Json :=
  (fenceJson t).bind p

/-- Attempt (3) of the spec: parse of the contents of any fenced block. -/
def attemptAnyFence (p : List Char → Option Json) (t : List Char) : Option Json :=
  (fenceAny t).bind p

/-! ## withRetry

`withRetry(fn, retries = 3, delay = 700)` from the service module.
The operation is modelled as a function from the attempt index (0-based
invocation count) to that invocation's outcome.  The model returns the
final outcome together with the list of sleep durations performed, in
order. -/

def withRetryRun (fn : Nat → Except ε α) :
    Nat → Nat → Nat → Except ε α × List Nat
  | attempt, retries, delay =>
    match fn attempt with
    | Except.ok a => (Except.ok a, [])
    | Except.error e =>
      match retries with
      | 0 => (Except.error e, [])
      | r + 1 =>
        let next := withRetryRun fn (attempt + 1) r (delay * 2)
        (next.1, delay :: next.2)

/-- `withRetry fn` with the default parameters `retries = 3`, `delay = 700`. -/
def withRetry (fn : Nat → Except ε α) : Except ε α × List Nat :=
  withRetryRun fn 0 3 700

/-! ## Provider configuration (AIService constructor) -/

inductive Provider where
  | groq
  | openai
  | gemini
deriving DecidableEq

/-- JavaScript `v || d` on an optional string (`undefined`, `null` and `""`
are falsy). -/
def jsOrStr (v : Option String) (d : String) : String :=
  match v with
  | some s => if s = "" then d else s
  | none => d

/-- `String.prototype.toLowerCase()` (ASCII range, which covers every
selector value compared against). -/
def strToLower (s : String) : String :=
  String.mk (s.data.map Char.toLower)

def invalidProviderMsg : String :=
  "Invalid AI_PROVIDER. Use \"groq\", \"openai\", or \"gemini\"."

/-- The `AIService` constructor's provider resolution:
`(process.env.AI_PROVIDER || "groq").toLowerCase()` followed by the
three-way branch; the final `else` throws. -/
def resolveProvider (env : Option String) : Except String Provider :=
  let p := strToLower (jsOrStr env "groq")
  if p = "groq" then Except.ok Provider.groq
  else if p = "openai" then Except.ok Provider.openai
  else if p = "gemini" then Except.ok Provider.gemini
  else Except.error invalidProviderMsg

/-! ## askAI request construction -/

inductive RespFormat where
  | jsonObject
deriving DecidableEq

structure ChatRequest where
  model : String
  system : String
  user : String
  temperature : ℚ
  response_format : Option RespFormat

structure GenRequest where
  text : String
  temperature : ℚ
  maxOutputTokens : Nat

inductive BackendRequest where
  | chat (r : ChatRequest)
  | gen (r : GenRequest)

/-- The request `askAI(system, user, wantsJSON)` issues to the configured
backend: chat-completion request with optional native JSON mode for
groq/openai, single-turn generation request with an optional appended
textual instruction for gemini. -/
def askAIRequest (provider : Provider) (model system user : String)
    (wantsJSON : Bool) : BackendRequest :=
  match provider with
  | Provider.groq | Provider.openai =>
    BackendRequest.chat
      { model := model
        system := system
        user := user
        temperature := (0.6 : ℚ)
        response_format := if wantsJSON then some RespFormat.jsonObject else none }
  | Provider.gemini =>
    BackendRequest.gen
      { text := system ++ "\n\n" ++ user ++
          (if wantsJSON then "\nReturn strictly valid JSON only." else "")
        temperature := (0.6 : ℚ)
        maxOutputTokens := 1800 }

/-- The `response_format` field of a chat request (`none` for the
generation backend, which has no such field). -/
def requestRespFormat : BackendRequest → Option (Option RespFormat)
  | BackendRequest.chat r => some r.response_format
  | BackendRequest.gen _ => none

/-- The prompt text of a generation request (`none` for chat requests). -/
def requestGenText : BackendRequest → Option String
  | BackendRequest.chat _ => none
  | BackendRequest.gen r => some r.text

/-! ## Hint pipeline (generateHint) -/

def hintSystemPrompt (subject grade : String) : String :=
  "\nYou are a tutor. Give a hint but DO NOT reveal the answer.\nGrade: "
    ++ grade ++ ", Subject: " ++ subject ++ "."

def hintUserPrompt (questionText : String) : String :=
  "Question: " ++ questionText ++ "\nGive a short hint:"

/-- The third argument `generateHint` passes to `askAI` (the
structured-output flag) is the literal `false`. -/
def generateHintWantsJson : Bool := false

/-- The backend request issued on behalf of `generateHint`. -/
def generateHintRequest (provider : Provider) (model questionText subject grade : String) :
    BackendRequest :=
  askAIRequest provider model (hintSystemPrompt subject grade)
    (hintUserPrompt questionText) generateHintWantsJson

/-- JavaScript `String.prototype.trim`: strip whitespace from both ends. -/
def jsTrim (s : String) : String :=
  String.mk (((s.data.dropWhile isRegexSpace).reverse.dropWhile isRegexSpace).reverse)

/-- `generateHint` post-processing of the raw backend text: `raw.trim()`,
with no JSON extraction. -/
def generateHintResult (raw : String) : String :=
  jsTrim raw

/-! ## generateQuiz post-processing -/

/-- JavaScript falsiness of a JSON value (`undefined` is modelled
separately as `Option.none` at use sites). -/
def jsFalsy : Json → Bool
  | Json.null => true
  | Json.bool b => !b
  | Json.num n => n == 0
  | Json.str s => s == ""
  | _ => false

/-- JavaScript `.length` of a JSON value: defined for arrays and strings,
`undefined` otherwise. -/
def jsLength : Json → Option Nat
  | Json.arr xs => some xs.length
  | Json.str s => some s.length
  | _ => none

/-- Last-wins association lookup, matching JavaScript object semantics
under `JSON.parse` for duplicate keys. -/
def objGetLast (kvs : List (String × Json)) (k : String) : Option Json :=
  (kvs.reverse.find? (fun kv => kv.1 == k)).map (fun kv => kv.2)

/-- A failure raised by the post-extraction tail of `generateQuiz`. -/
inductive QuizGenFailure where
  /-- The TypeError thrown by `parsed.questions` when `parsed` is `null`
  ("Cannot read properties of null"). -/
  | typeError
  /-- An explicit `throw new Error(msg)`. -/
  | thrown (msg : String)
deriving DecidableEq

/-- `parsed.questions`: JavaScript property access.  On `null` it throws a
TypeError; on any other non-object (number, string, boolean, array) it
yields `undefined` (`none`); on an object, the property value when the
key is present. -/
def questionsField : Json → Except QuizGenFailure (Option Json)
  | Json.null => Except.error QuizGenFailure.typeError
  | Json.obj kvs => Except.ok (objGetLast kvs "questions")
  | _ => Except.ok none

def noQuizMsg : String := "❌ No quiz questions generated"

/-- The tail of `generateQuiz` after extraction:
`if (!parsed.questions || parsed.questions.length === 0) throw ...;
return parsed.questions;` — where the property access itself throws on an
extracted `null`. -/
def generateQuizFromParsed (parsed : Json) : Except QuizGenFailure Json :=
  match questionsField parsed with
  | Except.error e => Except.error e
  | Except.ok none => Except.error (QuizGenFailure.thrown noQuizMsg)
  | Except.ok (some q) =>
    if jsFalsy q || jsLength q == some 0 then
      Except.error (QuizGenFailure.thrown noQuizMsg)
    else Except.ok q

inductive GenErr where
  | extract (e : ExtractErr)
  | failure (e : QuizGenFailure)

/-- `generateQuiz` as a function of the raw backend text. -/
def generateQuiz (raw : String) : Except GenErr Json :=
  match extractJSON raw with
  | Except.error e => Except.error (GenErr.extract e)
  | Except.ok parsed =>
    match generateQuizFromParsed parsed with
    | Except.error f => Except.error (GenErr.failure f)
    | Except.ok qs => Except.ok qs

/-! ## Submit-route reconciliation (server.js, POST /quiz/submit)

Shapes flowing through the handler.  `EvalItem` models one entry of the
AI's `evaluations` array; its `isCorrect` field is an arbitrary dynamic
value (`none` = absent).  An entry of the array itself may be a non-object
falsy value, modelled as `Option.none` inside the list. -/

structure Question where
  id : String
  questionNumber : Int
  questionText : String
  correctAnswer : String

structure AnswerItem where
  questionId : String
  answer : Option String

structure EvalItem where
  questionText : Option String := none
  correctAnswer : Option String := none
  userAnswer : Option String := none
  explanation : Option String := none
  isCorrect : Option Json := none

structure QuestionSubmission where
  questionId : String
  userAnswer : String
  isCorrect : Bool
deriving DecidableEq

structure Evaluation where
  score : Option ℚ := none
  maxScore : Option ℚ := none
  percentage : Option ℚ := none
  evaluations : Option (List (Option EvalItem)) := none
  improvements : Option (List String) := none

structure Submission where
  score : ℚ
  maxScore : ℚ
  percentage : ℚ
  improvements : List String
  questionSubmissions : List QuestionSubmission

/-- JavaScript `v || d` on an optional number (`undefined`, `null` and `0`
are falsy). -/
def jsOrNum (v : Option ℚ) (d : ℚ) : ℚ :=
  match v with
  | some x => if x = 0 then d else x
  | none => d

/-- `new Map((answers || []).map(item => [item.questionId, item.answer || ""]))`
as an insertion-ordered association list. -/
def answerMap (answers : List AnswerItem) : List (String × String) :=
  answers.map (fun a => (a.questionId, jsOrStr a.answer ""))

/-- `Map.prototype.get`: for duplicate keys the last insertion wins. -/
def mapGet (pairs : List (String × String)) (k : String) : Option String :=
  (pairs.reverse.find? (fun p => p.1 == k)).map (fun p => p.2)

/-- `evaluationItems[index] || {}`: out-of-range and falsy entries become
the empty object. -/
def evalItemAt (items : List (Option EvalItem)) (i : Nat) : EvalItem :=
  match items[i]? with
  | some (some e) => e
  | _ => {}

/-- `answerMap.get(question.id) ?? evaluationItem.userAnswer ?? ""`.
Map values are always strings, so the first `??` falls through exactly
when the user submitted no entry for this question id. -/
def reconciledUserAnswer (answers : List AnswerItem) (item : EvalItem)
    (q : Question) : String :=
  match mapGet (answerMap answers) q.id with
  | some a => a
  | none => item.userAnswer.getD ""

/-- `typeof v === "boolean"` projection of a dynamic value. -/
def jsIsBool : Option Json → Option Bool
  | some (Json.bool b) => some b
  | _ => none

/-- `typeof evaluationItem.isCorrect === "boolean" ? evaluationItem.isCorrect
: userAnswer === question.correctAnswer`. -/
def reconciledIsCorrect (item : EvalItem) (userAnswer : String)
    (q : Question) : Bool :=
  match jsIsBool item.isCorrect with
  | some b => b
  | none => userAnswer == q.correctAnswer

/-- One element of the `questionSubmissions.create` array. -/
def reconcileAt (answers : List AnswerItem) (items : List (Option EvalItem))
    (q : Question) (i : Nat) : QuestionSubmission :=
  let item := evalItemAt items i
  let ua := reconciledUserAnswer answers item q
  { questionId := q.id, userAnswer := ua, isCorrect := reconciledIsCorrect item ua q }

/-- `orderedQuestions.map((question, index) => ...)` with explicit start
index. -/
def buildQS (answers : List AnswerItem) (items : List (Option EvalItem)) :
    Nat → List Question → List QuestionSubmission
  | _, [] => []
  | i, q :: qs => reconcileAt answers items q i :: buildQS answers items (i + 1) qs

/-- The full `questionSubmissions.create` array of the submit handler. -/
def buildQuestionSubmissions (qs : List Question) (answers : List AnswerItem)
    (items : List (Option EvalItem)) : List QuestionSubmission :=
  buildQS answers items 0 qs

/-- Stable insertion sort by `questionNumber`, modelling
`[...quiz.questions].sort((a, b) => a.questionNumber - b.questionNumber)`. -/
def insertByNumber (q : Question) : List Question → List Question
  | [] => [q]
  | x :: xs =>
    if q.questionNumber < x.questionNumber then q :: x :: xs
    else x :: insertByNumber q xs

def sortByQuestionNumber : List Question → List Question
  | [] => []
  | q :: qs => insertByNumber q (sortByQuestionNumber qs)

/-- The submission record created by the submit handler, as a function of
the quiz's questions, the request's answers array, the AI evaluation
object and the quiz's stored `maxScore`. -/
def submitPipeline (questions : List Question) (answers : List AnswerItem)
    (evaluation : Evaluation) (quizMaxScore : ℚ) : Submission :=
  let orderedQuestions := sortByQuestionNumber questions
  let items := evaluation.evaluations.getD []
  { score := jsOrNum evaluation.score 0
    maxScore := jsOrNum evaluation.maxScore quizMaxScore
    percentage :=
      jsOrNum evaluation.score 0 / jsOrNum evaluation.maxScore quizMaxScore * 100
    improvements := evaluation.improvements.getD []
    questionSubmissions := buildQuestionSubmissions orderedQuestions answers items }

/-- `maxScore: numQuestions * 10` from the quiz-generation route
(`// 10 points per question`). -/
def genQuizMaxScore (numQuestions : Nat) : ℚ :=
  (numQuestions : ℚ) * 10

/-- Spec-side reading of §4.4's "using the AI's `maxScore` if present else
the quiz's stored max": presence of the field, with no truthiness test.
Used only to compare the specification's wording with the code. -/
def specMaxScoreIfPresent (evaluation : Evaluation) (quizMaxScore : ℚ) : ℚ :=
  match evaluation.maxScore with
  | some m => m
  | none => quizMaxScore

/-- The percentage the spec's wording prescribes, built from
`specMaxScoreIfPresent`. -/
def specPercentage (evaluation : Evaluation) (quizMaxScore : ℚ) : ℚ :=
  jsOrNum evaluation.score 0 / specMaxScoreIfPresent evaluation quizMaxScore * 100

/-- Scrub the AI-echoed question text from one `evaluations` entry. -/
def scrubQText : Option EvalItem → Option EvalItem
  | none => none
  | some e => some { e with questionText := none }

/-! ## Concrete instances used by the claims -/

def parisQuestion : Question :=
  { id := "q1"
    questionNumber := 1
    questionText := "What is the capital of France?"
    correctAnswer := "Paris" }

def parisAnswerExact : AnswerItem := { questionId := "q1", answer := some "Paris" }

def parisAnswerLower : AnswerItem := { questionId := "q1", answer := some "paris" }

/-- An AI evaluation item echoing an answer but omitting `isCorrect`. -/
def parisEvalNoBool : EvalItem :=
  { userAnswer := some "Paris", explanation := some "Paris is the capital." }

/-- A generated question with only two options and a correct answer not
among them: the pipeline accepts it as-is. -/
def malformedQuizQuestion : Json :=
  Json.obj
    [("questionText", Json.str "2+2?"),
     ("options", Json.arr [Json.str "1", Json.str "2"]),
     ("correctAnswer", Json.str "4"),
     ("difficulty", Json.str "easy")]

def malformedQuizParsed : Json :=
  Json.obj [("questions", Json.arr [malformedQuizQuestion])]

/-- An AI evaluation whose `maxScore` is present but `0` (falsy). -/
def evalMaxZero : Evaluation := { score := some 7, maxScore := some 0 }

/-- A json-tagged fenced block whose contents are not valid JSON. -/
def fencedBadJson : String := "```json\nnope\n```"

/-! ## Helper lemmas -/

theorem buildQS_getElem? (answers : List AnswerItem) (items : List (Option EvalItem))
    (n : Nat) (qs : List Question) (i : Nat) :
    (buildQS answers items n qs)[i]? =
      qs[i]?.map (fun q => reconcileAt answers items q (n + i)) := by
  induction qs generalizing n i with
  | nil => simp [buildQS]
  | cons q rest ih =>
    cases i with
    | zero => simp [buildQS]
    | succ j =>
      simp only [buildQS, List.getElem?_cons_succ, ih]
      have : n + (j + 1) = n + 1 + j := by omega
      rw [this]

theorem buildQuestionSubmissions_getElem? (qs : List Question)
    (answers : List AnswerItem) (items : List (Option EvalItem)) (i : Nat) :
    (buildQuestionSubmissions qs answers items)[i]? =
      qs[i]?.map (fun q => reconcileAt answers items q i) := by
  have h := buildQS_getElem? answers items 0 qs i
  simpa [buildQuestionSubmissions] using h

/-! ## Claim C4: retry with exponential backoff -/

/-- Claim C4: every operation run through the retry helper with default
parameters retries on any exception with exponential backoff — at most 3
retries, sleeping 700ms, 1400ms, 2800ms (doubling each attempt); an
operation failing twice then succeeding on the third attempt returns the
successful result with no error surfaced, having slept 700ms then 1400ms;
and when all attempts fail, the underlying error is propagated verbatim,
with no wrapping. -/
theorem claim_C4 :
    (∀ (ε α : Type) (fn : Nat → Except ε α),
      (withRetry fn).2 = [] ∨ (withRetry fn).2 = [700] ∨
      (withRetry fn).2 = [700, 1400] ∨ (withRetry fn).2 = [700, 1400, 2800])
    ∧ (∀ (ε α : Type) (fn : Nat → Except ε α) (e0 e1 : ε) (a : α),
        fn 0 = Except.error e0 → fn 1 = Except.error e1 → fn 2 = Except.ok a →
        withRetry fn = (Except.ok a, [700, 1400]))
    ∧ (∀ (ε α : Type) (fn : Nat → Except ε α) (e : ε),
        (∀ i, i ≤ 3 → fn i = Except.error e) →
        withRetry fn = (Except.error e, [700, 1400, 2800])) := by
  refine ⟨?_, ?_, ?_⟩
  · intro ε α fn
    cases h0 : fn 0 with
    | ok a => simp [withRetry, withRetryRun, h0]
    | error e0 =>
      cases h1 : fn 1 with
      | ok a => simp [withRetry, withRetryRun, h0, h1]
      | error e1 =>
        cases h2 : fn 2 with
        | ok a => simp [withRetry, withRetryRun, h0, h1, h2]
        | error e2 =>
          cases h3 : fn 3 with
          | ok a => simp [withRetry, withRetryRun, h0, h1, h2, h3]
          | error e3 => simp [withRetry, withRetryRun, h0, h1, h2, h3]
  · intro ε α fn e0 e1 a h0 h1 h2
    simp [withRetry, withRetryRun, h0, h1, h2]
  · intro ε α fn e h
    simp [withRetry, withRetryRun, h 0 (by omega), h 1 (by omega),
      h 2 (by omega), h 3 (by omega)]

/-- Witness for C4: an operation failing on its first two invocations and
succeeding on the third returns the success having slept 700 then 1400. -/
theorem claim_C4_witness :
    withRetry (fun i => if i < 2 then Except.error "boom" else Except.ok 42) =
      (Except.ok 42, [700, 1400]) :=
  claim_C4.2.1 String Nat _ "boom" "boom" 42 rfl rfl rfl

/-! ## Claim C7: provider selector resolution (corrected) -/

/-- Counterexample to C7 as stated: an unset selector is not a fatal
startup error — the constructor defaults it to `"groq"` and succeeds. -/
theorem claim_C7_counterexample :
    resolveProvider none = Except.ok Provider.groq := rfl

/-- Claim C7 (amended): the selector is resolved once at construction with
exactly three recognized values (groq, openai, gemini); an unrecognized
non-empty value is a fatal configuration error raised at construction,
before any request is served; an unset (or empty) selector defaults to
"groq" and is accepted rather than being fatal. -/
theorem claim_C7 :
    (∀ s : String, s ≠ "" → strToLower s ≠ "groq" → strToLower s ≠ "openai" →
      strToLower s ≠ "gemini" →
      resolveProvider (some s) = Except.error invalidProviderMsg)
    ∧ (∀ (env : Option String) (p : Provider),
        resolveProvider env = Except.ok p →
        p = Provider.groq ∨ p = Provider.openai ∨ p = Provider.gemini)
    ∧ resolveProvider none = Except.ok Provider.groq
    ∧ resolveProvider (some "groq") = Except.ok Provider.groq
    ∧ resolveProvider (some "openai") = Except.ok Provider.openai
    ∧ resolveProvider (some "gemini") = Except.ok Provider.gemini := by
  refine ⟨?_, ?_, rfl, rfl, rfl, rfl⟩
  · intro s hs h1 h2 h3
    simp [resolveProvider, jsOrStr, hs, h1, h2, h3]
  · intro env p _
    cases p <;> simp

/-- Witness for C7: an unrecognized selector value is rejected with the
constructor's configuration error. -/
theorem claim_C7_witness :
    resolveProvider (some "bogus") = Except.error invalidProviderMsg :=
  claim_C7.1 "bogus" (by decide) (by decide) (by decide) (by decide)

/-! ## Claim C10: case-insensitive provider selection -/

/-- Claim C10: the selector is lowercased before comparison, so every case
variant of the three recognized values is accepted and selects the same
backend as its lowercase form; in particular "GROQ", "OpenAI" and
"Gemini". -/
theorem claim_C10 :
    (∀ s : String, strToLower s = "groq" →
      resolveProvider (some s) = Except.ok Provider.groq)
    ∧ (∀ s : String, strToLower s = "openai" →
      resolveProvider (some s) = Except.ok Provider.openai)
    ∧ (∀ s : String, strToLower s = "gemini" →
      resolveProvider (some s) = Except.ok Provider.gemini)
    ∧ resolveProvider (some "GROQ") = Except.ok Provider.groq
    ∧ resolveProvider (some "OpenAI") = Except.ok Provider.openai
    ∧ resolveProvider (some "Gemini") = Except.ok Provider.gemini := by
  have hne : ∀ s : String, strToLower s ≠ "" → s ≠ "" := by
    intro s h he
    exact h (by simp [he, strToLower])
  refine ⟨?_, ?_, ?_, rfl, rfl, rfl⟩
  · intro s h
    have hs : s ≠ "" := hne s (by simp [h])
    simp [resolveProvider, jsOrStr, hs, h]
  · intro s h
    have hs : s ≠ "" := hne s (by simp [h])
    simp [resolveProvider, jsOrStr, hs, h]
  · intro s h
    have hs : s ≠ "" := hne s (by simp [h])
    simp [resolveProvider, jsOrStr, hs, h]

/-- Witness for C10: "GROQ" lowercases to "groq" and selects the groq
backend. -/
theorem claim_C10_witness :
    resolveProvider (some "GROQ") = Except.ok Provider.groq :=
  claim_C10.1 "GROQ" (by decide)

/-! ## Claim C8: structured-output flag handling and the hint path -/

/-- Claim C8: with the structured-output flag set, the two chat-completion
backends are invoked with native JSON mode (`response_format` of type
json_object), while the single-turn generation backend instead has an
explicit textual instruction demanding strictly valid JSON appended to
its prompt; the hint pipeline calls the adapter with the flag unset,
performs no JSON extraction, and returns the raw backend text trimmed of
surrounding whitespace only. -/
theorem claim_C8 :
    (∀ m s u : String,
      requestRespFormat (askAIRequest Provider.groq m s u true) =
        some (some RespFormat.jsonObject))
    ∧ (∀ m s u : String,
      requestRespFormat (askAIRequest Provider.openai m s u true) =
        some (some RespFormat.jsonObject))
    ∧ (∀ m s u : String,
      requestGenText (askAIRequest Provider.gemini m s u true) =
        some (s ++ "\n\n" ++ u ++ "\nReturn strictly valid JSON only."))
    ∧ generateHintWantsJson = false
    ∧ (∀ m qt sub gr : String,
      requestRespFormat (generateHintRequest Provider.groq m qt sub gr) = some none)
    ∧ (∀ m qt sub gr : String,
      requestRespFormat (generateHintRequest Provider.openai m qt sub gr) = some none)
    ∧ (∀ m qt sub gr : String,
      requestGenText (generateHintRequest Provider.gemini m qt sub gr) =
        some (hintSystemPrompt sub gr ++ "\n\n" ++ hintUserPrompt qt))
    ∧ (∀ raw : String, generateHintResult raw = jsTrim raw)
    ∧ generateHintResult "  keep ```json fences``` verbatim\n" =
        "keep ```json fences``` verbatim" := by
  refine ⟨fun m s u => rfl, fun m s u => rfl, fun m s u => rfl, rfl,
    fun m qt sub gr => rfl, fun m qt sub gr => rfl, ?_, fun raw => rfl, rfl⟩
  intro m qt sub gr
  simp [generateHintRequest, askAIRequest, requestGenText, generateHintWantsJson,
    String.append_empty]

/-- Witness for C8: a concrete groq request with the flag set carries
native JSON mode. -/
theorem claim_C8_witness :
    requestRespFormat (askAIRequest Provider.groq "m" "s" "u" true) =
      some (some RespFormat.jsonObject) :=
  claim_C8.1 "m" "s" "u"

/-! ## Claim C5: generateQuiz hard failure on absent questions (corrected) -/

/-- Counterexample to C5 as stated: `JSON.parse("null")` succeeds with
`null`, so `extractJSON` can hand the pipeline an extracted `null`; the
`questions` key is then missing, yet `parsed.questions` throws a
TypeError — not the typed "no quiz questions generated" failure the claim
prescribes for every missing-key case. -/
theorem claim_C5_counterexample :
    extractJSON "null" = Except.ok Json.null
    ∧ generateQuizFromParsed Json.null = Except.error QuizGenFailure.typeError
    ∧ generateQuiz "null" =
        Except.error (GenErr.failure QuizGenFailure.typeError)
    ∧ QuizGenFailure.typeError ≠ QuizGenFailure.thrown noQuizMsg :=
  ⟨rfl, rfl, rfl, by decide⟩

/-- Claim C5 (amended): for every extracted generation response,
`generateQuiz` returns the parsed `questions` sequence exactly as
extracted whenever it is present and non-empty, performing no validation
of individual questions (option count need not be 4 and the correct
answer need not appear among the options); whenever the extracted value
is non-null and the `questions` key is missing, or the sequence is empty,
it throws the hard "no quiz questions generated" failure; an extracted
JSON null instead throws a TypeError from the property access itself; in
every failure case no default quiz is substituted. -/
theorem claim_C5 :
    (∀ (raw : String) (parsed : Json) (xs : List Json),
      extractJSON raw = Except.ok parsed →
      questionsField parsed = Except.ok (some (Json.arr xs)) → xs ≠ [] →
      generateQuiz raw = Except.ok (Json.arr xs))
    ∧ (∀ (parsed : Json) (xs : List Json),
      questionsField parsed = Except.ok (some (Json.arr xs)) → xs ≠ [] →
      generateQuizFromParsed parsed = Except.ok (Json.arr xs))
    ∧ (∀ parsed : Json, questionsField parsed = Except.ok none →
      generateQuizFromParsed parsed = Except.error (QuizGenFailure.thrown noQuizMsg))
    ∧ (∀ parsed : Json, questionsField parsed = Except.ok (some (Json.arr [])) →
      generateQuizFromParsed parsed = Except.error (QuizGenFailure.thrown noQuizMsg))
    ∧ generateQuizFromParsed Json.null = Except.error QuizGenFailure.typeError
    ∧ generateQuizFromParsed malformedQuizParsed =
        Except.ok (Json.arr [malformedQuizQuestion]) := by
  have key : ∀ (parsed : Json) (xs : List Json),
      questionsField parsed = Except.ok (some (Json.arr xs)) → xs ≠ [] →
      generateQuizFromParsed parsed = Except.ok (Json.arr xs) := by
    intro parsed xs h hne
    have hlen : xs.length ≠ 0 := fun hl => hne (List.length_eq_zero.mp hl)
    simp [generateQuizFromParsed, h, jsFalsy, jsLength, hlen]
  refine ⟨?_, key, ?_, ?_, rfl, rfl⟩
  · intro raw parsed xs hex h hne
    simp [generateQuiz, hex, key parsed xs h hne]
  · intro parsed h
    simp [generateQuizFromParsed, h]
  · intro parsed h
    simp [generateQuizFromParsed, h, jsFalsy, jsLength]

/-- Witness for C5: a response whose single question has two options and a
correct answer not among them is returned exactly as extracted. -/
theorem claim_C5_witness :
    generateQuizFromParsed malformedQuizParsed =
      Except.ok (Json.arr [malformedQuizQuestion]) :=
  claim_C5.2.1 malformedQuizParsed [malformedQuizQuestion] rfl (by simp)

/-! ## Claim C9: the percentage divisor is never zero -/

/-- Claim C9: for every evaluated submission of a quiz created by the
generation route, the divisor of the percentage computation is nonzero:
when the AI omits `maxScore` or returns a falsy value, the computation
falls back to the quiz's stored `maxScore = numQuestions * 10 ≥ 10` (for
`numQuestions ≥ 1`), so the stored percentage is a well-defined quotient
and the division is never by zero. -/
theorem claim_C9 :
    ∀ (n : Nat) (questions : List Question) (answers : List AnswerItem)
      (evaluation : Evaluation), 1 ≤ n →
      (10 : ℚ) ≤ genQuizMaxScore n
      ∧ (submitPipeline questions answers evaluation (genQuizMaxScore n)).maxScore ≠ 0
      ∧ (submitPipeline questions answers evaluation (genQuizMaxScore n)).percentage =
          (submitPipeline questions answers evaluation (genQuizMaxScore n)).score /
            (submitPipeline questions answers evaluation (genQuizMaxScore n)).maxScore
            * 100 := by
  intro n questions answers evaluation hn
  have h10 : (10 : ℚ) ≤ genQuizMaxScore n := by
    have : (1 : ℚ) ≤ (n : ℚ) := by exact_mod_cast hn
    calc (10 : ℚ) = 1 * 10 := by norm_num
    _ ≤ (n : ℚ) * 10 := by nlinarith
  refine ⟨h10, ?_, rfl⟩
  have hq : genQuizMaxScore n ≠ 0 := by intro h; rw [h] at h10; norm_num at h10
  show jsOrNum evaluation.maxScore (genQuizMaxScore n) ≠ 0
  cases hm : evaluation.maxScore with
  | none => simpa [jsOrNum] using hq
  | some m =>
    by_cases hz : m = 0
    · simpa [jsOrNum, hz] using hq
    · simp [jsOrNum, hz]

/-- Witness for C9: a one-question quiz whose evaluation omits `maxScore`
still has a nonzero divisor. -/
theorem claim_C9_witness :
    (10 : ℚ) ≤ genQuizMaxScore 1
    ∧ (submitPipeline [] [] {} (genQuizMaxScore 1)).maxScore ≠ 0
    ∧ (submitPipeline [] [] {} (genQuizMaxScore 1)).percentage =
        (submitPipeline [] [] {} (genQuizMaxScore 1)).score /
          (submitPipeline [] [] {} (genQuizMaxScore 1)).maxScore * 100 :=
  claim_C9 1 [] [] {} (by omega)

/-! ## Claim C6: locally computed percentage (corrected) -/

/-- Counterexample to C6 as stated: when the AI returns `maxScore: 0` — a
present but falsy value — the code falls back to the quiz's stored
maxScore (`evaluation.maxScore || quiz.maxScore`), while the claim's
"when present" prescribes dividing by the AI's 0.  With score 7 and quiz
maxScore 10 the code stores 70, not the claim's formula value. -/
theorem claim_C6_counterexample :
    (submitPipeline [] [] evalMaxZero 10).percentage = 70
    ∧ specMaxScoreIfPresent evalMaxZero 10 = 0
    ∧ specPercentage evalMaxZero 10 = 0
    ∧ (submitPipeline [] [] evalMaxZero 10).percentage ≠
        specPercentage evalMaxZero 10 := by
  refine ⟨?_, rfl, ?_, ?_⟩
  · show jsOrNum (some 7) 0 / jsOrNum (some 0) 10 * 100 = 70
    norm_num [jsOrNum]
  · show jsOrNum (some 7) 0 / specMaxScoreIfPresent evalMaxZero 10 * 100 = 0
    norm_num [jsOrNum, specMaxScoreIfPresent, evalMaxZero]
  · intro h
    rw [show (submitPipeline [] [] evalMaxZero 10).percentage =
        jsOrNum (some 7) 0 / jsOrNum (some 0) 10 * 100 from rfl] at h
    rw [show specPercentage evalMaxZero 10 =
        jsOrNum (some 7) 0 / specMaxScoreIfPresent evalMaxZero 10 * 100 from rfl] at h
    norm_num [jsOrNum, specMaxScoreIfPresent, evalMaxZero] at h

/-- Claim C6 (amended): the stored percentage is computed locally as
`score / maxScore * 100` over the stored score and stored maxScore, the
stored maxScore being the AI-returned `maxScore` when present and truthy
(nonzero) and the quiz's stored maxScore otherwise; the percentage is
never taken from a percentage value embedded in the AI response; for
score 7 and maxScore 10 the computed percentage is exactly 70. -/
theorem claim_C6 :
    ∀ (questions : List Question) (answers : List AnswerItem)
      (evaluation : Evaluation) (quizMax : ℚ),
      ((submitPipeline questions answers evaluation quizMax).percentage =
        (submitPipeline questions answers evaluation quizMax).score /
          (submitPipeline questions answers evaluation quizMax).maxScore * 100)
      ∧ (∀ m : ℚ, evaluation.maxScore = some m → m ≠ 0 →
          (submitPipeline questions answers evaluation quizMax).maxScore = m)
      ∧ (evaluation.maxScore = none ∨ evaluation.maxScore = some 0 →
          (submitPipeline questions answers evaluation quizMax).maxScore = quizMax)
      ∧ (∀ p : Option ℚ,
          submitPipeline questions answers { evaluation with percentage := p } quizMax =
            submitPipeline questions answers evaluation quizMax)
      ∧ (evaluation.score = some 7 → evaluation.maxScore = some 10 →
          (submitPipeline questions answers evaluation quizMax).percentage = 70) := by
  intro questions answers evaluation quizMax
  refine ⟨rfl, ?_, ?_, fun p => rfl, ?_⟩
  · intro m hm hz
    show jsOrNum evaluation.maxScore quizMax = m
    simp [jsOrNum, hm, hz]
  · intro h
    show jsOrNum evaluation.maxScore quizMax = quizMax
    rcases h with h | h <;> simp [jsOrNum, h]
  · intro hs hm
    show jsOrNum evaluation.score 0 / jsOrNum evaluation.maxScore quizMax * 100 = 70
    rw [hs, hm]
    norm_num [jsOrNum]

/-- Witness for C6: an evaluation with score 7 and maxScore 10 stores
exactly 70. -/
theorem claim_C6_witness :
    (submitPipeline [] [] { score := some 7, maxScore := some 10 } 40).percentage = 70 :=
  (claim_C6 [] [] { score := some 7, maxScore := some 10 } 40).2.2.2.2 rfl rfl

/-! ## Claim C1: correctness reconciliation -/

/-- Claim C1: for every question at position i, the stored correctness
boolean equals the AI's `isCorrect` exactly when the i-th AI evaluation
item contains an explicit boolean `isCorrect`; in every other case
(missing, non-boolean, or i-th item absent) it equals the exact,
case-sensitive string equality of the stored user answer with the
question's known correct answer.  In particular, with correctAnswer
"Paris" and no AI-provided boolean, submitted answer "Paris" yields true
and submitted answer "paris" yields false. -/
theorem claim_C1 :
    (∀ (qs : List Question) (answers : List AnswerItem)
       (items : List (Option EvalItem)) (i : Nat) (q : Question)
       (sub : QuestionSubmission),
      qs[i]? = some q →
      (buildQuestionSubmissions qs answers items)[i]? = some sub →
      sub.isCorrect =
        (match jsIsBool (evalItemAt items i).isCorrect with
         | some b => b
         | none => sub.userAnswer == q.correctAnswer))
    ∧ buildQuestionSubmissions [parisQuestion] [parisAnswerExact] [some parisEvalNoBool] =
        [{ questionId := "q1", userAnswer := "Paris", isCorrect := true }]
    ∧ buildQuestionSubmissions [parisQuestion] [parisAnswerLower] [some parisEvalNoBool] =
        [{ questionId := "q1", userAnswer := "paris", isCorrect := false }] := by
  refine ⟨?_, by decide, by decide⟩
  intro qs answers items i q sub hq hsub
  rw [buildQuestionSubmissions_getElem?, hq] at hsub
  cases Option.some.inj hsub
  show reconciledIsCorrect (evalItemAt items i)
      (reconciledUserAnswer answers (evalItemAt items i) q) q = _
  unfold reconciledIsCorrect
  cases jsIsBool (evalItemAt items i).isCorrect <;> rfl

/-- Witness for C1: at index 0 of a concrete run with no AI boolean, the
stored correctness is the string equality of the stored answer with
"Paris". -/
theorem claim_C1_witness :
    ({ questionId := "q1", userAnswer := "Paris", isCorrect := true } :
        QuestionSubmission).isCorrect =
      (match jsIsBool (evalItemAt [some parisEvalNoBool] 0).isCorrect with
       | some b => b
       | none =>
         ({ questionId := "q1", userAnswer := "Paris", isCorrect := true } :
             QuestionSubmission).userAnswer == parisQuestion.correctAnswer) :=
  claim_C1.1 [parisQuestion] [parisAnswerExact] [some parisEvalNoBool] 0
    parisQuestion _ rfl rfl

/-! ## Claim C2: answer lookup, index alignment, short evaluations -/

theorem evalItemAt_map_scrub (items : List (Option EvalItem)) (i : Nat) :
    evalItemAt (items.map scrubQText) i =
      { evalItemAt items i with questionText := none } := by
  unfold evalItemAt
  rw [List.getElem?_map scrubQText items i]
  cases h : items[i]? with
  | none => rfl
  | some oe => cases oe <;> rfl

theorem reconcileAt_scrub (answers : List AnswerItem)
    (items : List (Option EvalItem)) (q : Question) (i : Nat) :
    reconcileAt answers (items.map scrubQText) q i = reconcileAt answers items q i := by
  unfold reconcileAt
  rw [evalItemAt_map_scrub]
  rfl

theorem buildQS_map_scrub (answers : List AnswerItem)
    (items : List (Option EvalItem)) (n : Nat) (qs : List Question) :
    buildQS answers (items.map scrubQText) n qs = buildQS answers items n qs := by
  induction qs generalizing n with
  | nil => rfl
  | cons q rest ih => simp [buildQS, reconcileAt_scrub, ih]

/-- Claim C2: the stored user-answer is the answer the user actually
submitted, looked up by the question's id, falling back to the AI-echoed
answer only when the user submitted nothing for that question; AI
evaluation items are aligned to questions strictly by caller-supplied
index — scrubbing every AI-echoed question text changes nothing — and
when the AI's `evaluations` array is shorter than the question sequence,
each missing item is an empty judgement (no claimed correctness), so the
local string-equality fallback decides its correctness. -/
theorem claim_C2 :
    (∀ (qs : List Question) (answers : List AnswerItem)
       (items : List (Option EvalItem)) (i : Nat) (q : Question)
       (sub : QuestionSubmission),
      qs[i]? = some q →
      (buildQuestionSubmissions qs answers items)[i]? = some sub →
      sub.userAnswer =
        (match mapGet (answerMap answers) q.id with
         | some a => a
         | none => (evalItemAt items i).userAnswer.getD ""))
    ∧ (∀ (qs : List Question) (answers : List AnswerItem)
       (items : List (Option EvalItem)),
      buildQuestionSubmissions qs answers (items.map scrubQText) =
        buildQuestionSubmissions qs answers items)
    ∧ (∀ (qs : List Question) (answers : List AnswerItem)
       (items : List (Option EvalItem)) (i : Nat) (q : Question)
       (sub : QuestionSubmission),
      items.length ≤ i →
      qs[i]? = some q →
      (buildQuestionSubmissions qs answers items)[i]? = some sub →
      jsIsBool (evalItemAt items i).isCorrect = none
      ∧ sub.isCorrect = (sub.userAnswer == q.correctAnswer)) := by
  refine ⟨?_, ?_, ?_⟩
  · intro qs answers items i q sub hq hsub
    rw [buildQuestionSubmissions_getElem?, hq] at hsub
    cases Option.some.inj hsub
    rfl
  · intro qs answers items
    exact buildQS_map_scrub answers items 0 qs
  · intro qs answers items i q sub hlen hq hsub
    have hnone : items[i]? = none := List.getElem?_eq_none hlen
    have hitem : evalItemAt items i = {} := by
      unfold evalItemAt
      rw [hnone]
    rw [buildQuestionSubmissions_getElem?, hq] at hsub
    cases Option.some.inj hsub
    refine ⟨by rw [hitem]; rfl, ?_⟩
    show reconciledIsCorrect (evalItemAt items i)
        ((reconcileAt answers items q i).userAnswer) q = _
    rw [hitem]
    rfl

/-- Witness for C2: with an empty `evaluations` array, the single
question's item is an empty judgement and local equality decides. -/
theorem claim_C2_witness :
    jsIsBool (evalItemAt ([] : List (Option EvalItem)) 0).isCorrect = none
    ∧ ({ questionId := "q1", userAnswer := "", isCorrect := false } :
          QuestionSubmission).isCorrect =
        (({ questionId := "q1", userAnswer := "", isCorrect := false } :
            QuestionSubmission).userAnswer == parisQuestion.correctAnswer) :=
  claim_C2.2.2 [parisQuestion] [] [] 0 parisQuestion _ (Nat.le_refl 0) rfl rfl

/-! ## Claim C3: extractJSON extraction cascade (corrected) -/

/-- Counterexample to C3 as stated: on a json-tagged fenced block with
invalid contents, all three attempts fail, yet `extractJSON` raises the
unguarded `JSON.parse` syntax error from attempt (2) rather than the
typed "AI did not return valid JSON" error. -/
theorem claim_C3_counterexample :
    attemptDirect jsParse fencedBadJson.data = none
    ∧ attemptJsonFence jsParse fencedBadJson.data = none
    ∧ attemptAnyFence jsParse fencedBadJson.data = none
    ∧ extractJSON fencedBadJson = Except.error ExtractErr.syntaxErr
    ∧ ExtractErr.syntaxErr ≠ ExtractErr.noValidJson :=
  ⟨rfl, rfl, rfl, rfl, by decide⟩

/-- Claim C3 (amended): `extractJSON` attempts, in order: (1) a direct
parse of the entire text; if that fails and a json-tagged fenced block is
present, (2) its contents are parsed, a parse failure propagating as the
parse (syntax) error without attempt (3) being tried; otherwise, if any
fenced block is present, (3) its contents are parsed, a failure likewise
propagating as the parse error; the typed "AI did not return valid JSON"
error is raised exactly when the direct parse fails and neither fenced
pattern matches.  The input "Sure! ```json {"a":1} ```" extracts {a:1},
and an input with no fenced block and no parseable JSON raises the typed
error. -/
theorem claim_C3 :
    (∀ (p : List Char → Option Json) (t : List Char) (v : Json),
      p t = some v → extractJSONwith p t = Except.ok v)
    ∧ (∀ (p : List Char → Option Json) (t c : List Char),
      p t = none → fenceJson t = some c →
      extractJSONwith p t =
        (match p c with
         | some v => Except.ok v
         | none => Except.error ExtractErr.syntaxErr))
    ∧ (∀ (p : List Char → Option Json) (t c : List Char),
      p t = none → fenceJson t = none → fenceAny t = some c →
      extractJSONwith p t =
        (match p c with
         | some v => Except.ok v
         | none => Except.error ExtractErr.syntaxErr))
    ∧ (∀ (p : List Char → Option Json) (t : List Char),
      extractJSONwith p t = Except.error ExtractErr.noValidJson ↔
        p t = none ∧ fenceJson t = none ∧ fenceAny t = none)
    ∧ extractJSON "Sure! ```json\n\x7b\"a\":1\x7d\n```" =
        Except.ok (Json.obj [("a", Json.num 1)])
    ∧ extractJSON "Hello there" = Except.error ExtractErr.noValidJson := by
  refine ⟨?_, ?_, ?_, ?_, rfl, rfl⟩
  · intro p t v h
    simp [extractJSONwith, h]
  · intro p t c h hf
    simp only [extractJSONwith, h, hf]
  · intro p t c h hf ha
    simp only [extractJSONwith, h, hf, ha]
  · intro p t
    constructor
    · intro h
      cases hp : p t with
      | some v => simp [extractJSONwith, hp] at h
      | none =>
        cases hf : fenceJson t with
        | some c =>
          cases hc : p c with
          | some v => simp [extractJSONwith, hp, hf, hc] at h
          | none => simp [extractJSONwith, hp, hf, hc] at h
        | none =>
          cases ha : fenceAny t with
          | some c =>
            cases hc : p c with
            | some v => simp [extractJSONwith, hp, hf, ha, hc] at h
            | none => simp [extractJSONwith, hp, hf, ha, hc] at h
          | none => exact ⟨rfl, rfl, rfl⟩
    · intro ⟨hp, hf, ha⟩
      simp [extractJSONwith, hp, hf, ha]

/-- Witness for C3: a directly parseable object is returned by attempt
(1). -/
theorem claim_C3_witness :
    extractJSONwith jsParse ("\x7b\"a\":1\x7d".data) =
      Except.ok (Json.obj [("a", Json.num 1)]) :=
  claim_C3.1 jsParse ("\x7b\"a\":1\x7d".data) (Json.obj [("a", Json.num 1)]) rfl

end AIQuiz
